import Mathlib

/-!
Verification development for the Hospital-Pressure-Analyse repository.

The embedded code is the spreadsheet reshaper `extract_nhs_sheet` and the
driver `extract_all_nhs_data` from `nhs_data_extractor-checkpoint.py`,
together with the best-effort download loops `download_weather_data` and
`download_google_trends` from `data_extraction.py`.

Modelling conventions, stated once here:

* A spreadsheet cell is a tagged union `Cell`: missing/NaN, a text string,
  a numeric value, or a date value.  Numeric cell contents are modelled by
  integers (the claims under study never depend on fractional values, and
  floating point is out of scope); a date cell carries an abstract ordinal
  (a `Nat`), since only identity and propagation of dates matter here.
* A grid is the rectangular table pandas produces from `xl.parse(...,
  header=None)`: a column count plus a list of rows; rows shorter than the
  column count are implicitly NaN-padded, which `cellAt` realises with a
  default of `Cell.empty`.
* Python exceptions raised by the extraction pipeline are modelled by the
  `Except PyErr` monad: positional indexing past the end of
  `df_data.columns` raises `IndexError`, assigning a column-name list of
  the wrong length raises `ValueError`, selecting the missing `value`
  column of an empty `DataFrame` raises `KeyError`, and reading header
  rows that do not exist raises `IndexError`.
* pandas label lookups (`row[col_name]`, and the fixed labels `region`,
  `trust_code`, `trust_name`) are modelled as the value of the first
  column carrying that label.  This agrees with pandas whenever the label
  is unique, which holds in every concrete grid considered below.
* `df.dropna(how='all', subset=cols)` with an empty `cols` is modelled as
  dropping every row (zero considered values, so the row counts as
  all-NaN); no statement below depends on this corner.
* Python truthiness (`if date and metric:`) is modelled by `pyTruthy`:
  note that a float NaN is truthy in Python, so a missing metric cell is
  truthy and is NOT skipped by that test.
-/

namespace HospitalPressure

/-- A spreadsheet cell value: missing (NaN), text, numeric, or a date. -/
inductive Cell where
  | empty : Cell
  | str (s : String) : Cell
  | num (n : Int) : Cell
  | date (d : Nat) : Cell
deriving DecidableEq

/-- The Python exceptions the modelled pipeline can raise. -/
inductive PyErr where
  | indexError : PyErr
  | keyError : PyErr
  | valueError : PyErr
  | exc (msg : String) : PyErr
deriving DecidableEq

/-- A sheet as parsed by pandas: a rectangular table of cells. -/
structure Grid where
  ncols : Nat
  rows : List (List Cell)
deriving DecidableEq

/-- Read the cell at (row, column); short rows are NaN-padded. -/
def cellAt (g : Grid) (r c : Nat) : Cell :=
  (g.rows.getD r []).getD c Cell.empty

/-- One entry of the `date_metric_map` built at lines 79-86 of
`nhs_data_extractor-checkpoint.py`: a column position in `df_data`, the
resolved date for that column, and the stripped metric name. -/
structure DM where
  col_idx : Nat
  date : Nat
  metric : String
deriving DecidableEq

/-- A record of the long-format output before numeric coercion: the
dictionary appended at lines 94-101 of the source, with `value` still a
raw cell. -/
structure RawRec where
  date : Nat
  region : Cell
  trust_code : Cell
  trust_name : Cell
  metric : String
  value : Cell
deriving DecidableEq

/-- A record of the final long-format output, after `pd.to_numeric` and
`dropna` (lines 103-109): `value` is now numeric. -/
structure Rec where
  date : Nat
  region : Cell
  trust_code : Cell
  trust_name : Cell
  metric : String
  value : Int
deriving DecidableEq

/-- Python truthiness of a cell value, as tested by `if date and metric:`
(line 81).  A float NaN is truthy in Python, so `Cell.empty` is truthy;
the empty string and the number 0 are falsy. -/
def pyTruthy : Cell → Bool
  | Cell.empty => true
  | Cell.str s => !s.isEmpty
  | Cell.num n => n != 0
  | Cell.date _ => true

/-- Python `str(...)` of a cell value, as applied to metric names at line
85.  `str(nan)` is `"nan"`; the rendering of a date cell is abstract. -/
def cellPyStr : Cell → String
  | Cell.empty => "nan"
  | Cell.str s => s
  | Cell.num n => toString n
  | Cell.date d => "Timestamp " ++ toString d

/-- Python `str.strip()` on a character list: drop whitespace from both
ends. -/
def pyStripChars (l : List Char) : List Char :=
  ((l.dropWhile Char.isWhitespace).reverse.dropWhile Char.isWhitespace).reverse

/-- Python `str.strip()`, as applied to metric names at line 85. -/
def pyStrip (s : String) : String :=
  String.mk (pyStripChars s.data)

/-- The numeric value of a digit string. -/
def natOfDigits (l : List Char) : Nat :=
  l.foldl (fun acc c => acc * 10 + (c.toNat - 48)) 0

/-- Numeric parsing of a string as performed by `pd.to_numeric`: an
optionally signed decimal integer literal, surrounding whitespace
ignored.  (Fractional and exponent literals are outside the modelled
value domain.) -/
def parseNumStr (s : String) : Option Int :=
  match pyStripChars s.data with
  | [] => none
  | c :: cs =>
    if c = '-' then
      if cs.isEmpty || !cs.all Char.isDigit then none
      else some (-(Int.ofNat (natOfDigits cs)))
    else if (c :: cs).all Char.isDigit then some (Int.ofNat (natOfDigits (c :: cs)))
    else none

/-- `pd.to_numeric(value, errors='coerce')` on a single cell (line 106):
numbers pass through, numeric strings parse, everything else becomes NaN
(here `none`) and is later dropped by `dropna` (line 109). -/
def toNumeric : Cell → Option Int
  | Cell.num n => some n
  | Cell.str s => parseNumStr s
  | _ => none

/-- The date-resolution loop of lines 45-53: scan the row-13 cells of the
data columns left to right; an actual date/timestamp cell resolves to its
own date; otherwise the column receives the previous entry of the list
being built (`dates.append(dates[-1])`), which is `None` while no date
has been seen.  The accumulator `last` is the previous entry (initially
`none`, matching the empty list). -/
def resolveDates : List Cell → Option Nat → List (Option Nat)
  | [], _ => []
  | Cell.date d :: rest, _ => some d :: resolveDates rest (some d)
  | _ :: rest, last => last :: resolveDates rest last

/-- The `date_metric_map` construction of lines 79-86: enumerate the
(resolved date, metric cell) pairs starting at index `i`; keep a pair iff
`date and metric` is truthy (a `None` date is falsy, a timestamp truthy;
metric truthiness per `pyTruthy`, so a NaN metric cell is KEPT and named
`"nan"`); the stored column position is the enumeration index plus 4
(the source comment says "+4 because first 4 cols are metadata"). -/
def mkDateMetricMap : Nat → List (Option Nat) → List Cell → List DM
  | _, [], _ => []
  | _, _ :: _, [] => []
  | i, od :: ds, m :: ms =>
    let rest := mkDateMetricMap (i + 1) ds ms
    if od.isSome && pyTruthy m then
      { col_idx := i + 4, date := od.getD 0, metric := pyStrip (cellPyStr m) } :: rest
    else rest

/-- The column labels of `df_data` after line 65 assigns
`['_drop1','region','_drop2','trust_code','trust_name'] + metrics` and
line 68 drops `_drop1` and `_drop2`: three metadata labels followed by
the raw metric cells. -/
def dfColumns (metrics : List Cell) : List Cell :=
  Cell.str "region" :: Cell.str "trust_code" :: Cell.str "trust_name" :: metrics

/-- The value of a `df_data` row at column position `j`: positions 0, 1, 2
are the surviving metadata columns (grid columns 1, 3, 4), position 3+k is
data column k (grid column 5+k). -/
def dfDataCell (row : List Cell) : Nat → Cell
  | 0 => row.getD 1 Cell.empty
  | 1 => row.getD 3 Cell.empty
  | 2 => row.getD 4 Cell.empty
  | k + 3 => row.getD (5 + k) Cell.empty

/-- Position of the first column carrying a given label (pandas
label-based lookup; the labels used by the source are always present). -/
def labelIndex : List Cell → Cell → Nat
  | [], _ => 0
  | c :: cs, lab => if c = lab then 0 else labelIndex cs lab + 1

/-- `row[col_name]`: the value of the row at the first column whose label
is `lab`. -/
def rowLabelGet (cols row : List Cell) (lab : Cell) : Cell :=
  dfDataCell row (labelIndex cols lab)

/-- The row-13 cells of the data columns (columns 5 onward), read by the
loop at line 46. -/
def datesCells (g : Grid) : List Cell :=
  (List.range (g.ncols - 5)).map fun k => cellAt g 13 (5 + k)

/-- The row-14 cells of the data columns: `df_raw.iloc[14, 5:]`
(line 56). -/
def metricsCells (g : Grid) : List Cell :=
  (List.range (g.ncols - 5)).map fun k => cellAt g 14 (5 + k)

/-- The labels of `df_data` for a grid. -/
def colsOf (g : Grid) : List Cell :=
  dfColumns (metricsCells g)

/-- The `date_metric_map` for a grid. -/
def dmapOf (g : Grid) : List DM :=
  mkDateMetricMap 0 (resolveDates (datesCells g) Option.none) (metricsCells g)

/-- Line 72, `dropna(subset=df_data.columns[4:], how='all')`: keep a row
iff some considered value (positions 4 onward of `df_data`; note position
3, the first data column, is NOT considered) is non-missing. -/
def keepAnyData (g : Grid) (row : List Cell) : Bool :=
  (List.range ((colsOf g).length - 4)).any fun k =>
    !(dfDataCell row (4 + k) == Cell.empty)

/-- Line 75: keep a row iff its `trust_name` cell is non-missing. -/
def keepTrust (row : List Cell) : Bool :=
  !(dfDataCell row 2 == Cell.empty)

/-- The data rows that survive lines 62-75: rows from index 15 on, with
rows dropped by the all-NaN check and then rows with a missing
`trust_name` removed. -/
def filteredRows (g : Grid) : List (List Cell) :=
  ((g.rows.drop 15).filter (keepAnyData g)).filter keepTrust

/-- One record dictionary of lines 94-101, given the column name already
looked up positionally. -/
def mkRaw (cols : List Cell) (sheet : String) (row : List Cell) (dm : DM)
    (colName : Cell) : RawRec :=
  { date := dm.date
    region := rowLabelGet cols row (Cell.str "region")
    trust_code := rowLabelGet cols row (Cell.str "trust_code")
    trust_name := rowLabelGet cols row (Cell.str "trust_name")
    metric := sheet ++ "_" ++ dm.metric
    value := rowLabelGet cols row colName }

/-- The inner loop of lines 91-101 for one data row: for each map entry,
`df_data.columns[dm['col_idx']]` is a positional access that raises
`IndexError` when the position is out of range; otherwise the record is
appended with the label-looked-up value. -/
def rowRawRecords (cols : List Cell) (sheet : String) (row : List Cell) :
    List DM → Except PyErr (List RawRec)
  | [] => Except.ok []
  | dm :: rest =>
    if h : dm.col_idx < cols.length then
      match rowRawRecords cols sheet row rest with
      | Except.error e => Except.error e
      | Except.ok tail =>
        Except.ok (mkRaw cols sheet row dm (cols.get ⟨dm.col_idx, h⟩) :: tail)
    else Except.error PyErr.indexError

/-- The double loop of lines 89-101: rows outer, map entries inner; the
first failing positional column access aborts the sheet. -/
def buildRawRecords (cols : List Cell) (sheet : String) :
    List (List Cell) → List DM → Except PyErr (List RawRec)
  | [], _ => Except.ok []
  | r :: rs, dmap =>
    match rowRawRecords cols sheet r dmap with
    | Except.error e => Except.error e
    | Except.ok recs =>
      match buildRawRecords cols sheet rs dmap with
      | Except.error e => Except.error e
      | Except.ok rest => Except.ok (recs ++ rest)

/-- Coercion and dropping of one long-format row (lines 106-109). -/
def coerceRec (raw : RawRec) : Option Rec :=
  match toNumeric raw.value with
  | some v =>
    some { date := raw.date, region := raw.region, trust_code := raw.trust_code
           trust_name := raw.trust_name, metric := raw.metric, value := v }
  | none => none

/-- `extract_nhs_sheet` (lines 19-113).  Error cases, in source order:
reading header rows 13/14 of a sheet with at most 14 rows raises
`IndexError`; assigning the 5+len(metrics) column names to a grid with
fewer than 5 columns raises `ValueError` (length mismatch); a positional
column access past the end raises `IndexError` inside the record loop;
and when the record list is empty, `pd.DataFrame([])` has no `value`
column, so line 106 raises `KeyError`. -/
def extract_nhs_sheet (g : Grid) (sheet : String) : Except PyErr (List Rec) :=
  if g.rows.length ≤ 14 then Except.error PyErr.indexError
  else if g.ncols < 5 then Except.error PyErr.valueError
  else
    match buildRawRecords (colsOf g) sheet (filteredRows g) (dmapOf g) with
    | Except.error e => Except.error e
    | Except.ok raws =>
      if raws.isEmpty then Except.error PyErr.keyError
      else Except.ok (raws.filterMap coerceRec)

/-- The five target sheets of `extract_all_nhs_data` (lines 135-141). -/
def targetSheets : List String :=
  ["Total G&A beds", "Adult G&A beds", "Adult critical care", "Flu", "RSV"]

/-- The per-sheet try/except loop of lines 143-151: a failing sheet is
logged and skipped, a succeeding sheet's frame is appended. -/
def collectSheets (wb : String → Grid) : List String → List (List Rec)
  | [] => []
  | s :: ss =>
    match extract_nhs_sheet (wb s) s with
    | Except.ok recs => recs :: collectSheets wb ss
    | Except.error _ => collectSheets wb ss

/-- `extract_all_nhs_data` (lines 116-160), with the workbook abstracted
as a map from sheet names to grids (file discovery is out of scope).
`pd.concat(all_data)` at line 154 raises `ValueError` when every sheet
failed and the list is empty. -/
def extract_all_nhs_data (wb : String → Grid) : Except PyErr (List Rec) :=
  let all_data := collectSheets wb targetSheets
  if all_data.isEmpty then Except.error PyErr.valueError
  else Except.ok all_data.flatten

/-- The configured UK cities of `Config.UK_CITIES` (lines 55-64), by name;
coordinates do not influence control flow. -/
def ukCities : List String :=
  ["London", "Manchester", "Birmingham", "Leeds", "Edinburgh", "Liverpool",
   "Bristol", "Norwich"]

/-- The configured Google Trends keywords (lines 67-73). -/
def trendsKeywords : List String :=
  ["flu symptoms", "fever", "A&E wait times", "emergency room", "cold and flu"]

/-- The per-city try/except loop of `download_weather_data` (lines
250-311): a failed fetch is logged and skipped, a successful city's frame
is appended.  The fetched rows are opaque (`α`). -/
def collectCities {α : Type} (fetch : String → Except PyErr (List α)) :
    List String → List (List α)
  | [] => []
  | c :: cs =>
    match fetch c with
    | Except.ok rows => rows :: collectCities fetch cs
    | Except.error _ => collectCities fetch cs

/-- `download_weather_data` (lines 226-332): best-effort loop over the
cities, then concatenation of the successes (an empty frame when none). -/
def download_weather_data {α : Type} (fetch : String → Except PyErr (List α)) :
    List α :=
  (collectCities fetch ukCities).flatten

/-- The per-keyword try/except loop of `download_google_trends` (lines
363-398): a failed fetch is logged and skipped; a successful fetch whose
frame is empty is also skipped (the `if not df_trend.empty` test at line
379). -/
def collectKeywords {α : Type} (fetch : String → Except PyErr (List α)) :
    List String → List (List α)
  | [] => []
  | k :: ks =>
    match fetch k with
    | Except.ok rows =>
      if rows.isEmpty then collectKeywords fetch ks
      else rows :: collectKeywords fetch ks
    | Except.error _ => collectKeywords fetch ks

/-- `download_google_trends` (lines 339-424): the outer try around the
Pytrends initialisation returns an empty frame on failure; otherwise the
best-effort keyword loop runs and the successes are concatenated. -/
def download_google_trends {α : Type} (init : Except PyErr Unit)
    (fetch : String → Except PyErr (List α)) : List α :=
  match init with
  | Except.error _ => []
  | Except.ok _ => (collectKeywords fetch trendsKeywords).flatten

/-! Concrete grids used by the witnesses, counterexamples, and failing
inputs below.  All have 16 rows (indices 0-15) and 7 columns: the five
metadata columns, then two data columns (grid columns 5 and 6). -/

deriving instance DecidableEq for Except

/-- The abstract ordinal standing for the calendar date 2025-01-01. -/
def dJan1 : Nat := 20250101

/-- The end-to-end example grid of the specification: row 13 carries the
date 2025-01-01 in both data columns, row 14 the metric names
`Beds Available` / `Beds Occupied`, row 15 one trust's data. -/
def exGrid1 : Grid :=
  { ncols := 7
    rows := List.replicate 13 [] ++
      [ [Cell.empty, Cell.empty, Cell.empty, Cell.empty, Cell.empty,
         Cell.date dJan1, Cell.date dJan1],
        [Cell.empty, Cell.empty, Cell.empty, Cell.empty, Cell.empty,
         Cell.str "Beds Available", Cell.str "Beds Occupied"],
        [Cell.str "x", Cell.str "North", Cell.str "R1", Cell.str "T1",
         Cell.str "Trust One", Cell.num 120, Cell.num 95] ] }

/-- A grid with a single explicit date, metric `M` in the first data
column and an empty-string metric in the second (so that the second
column is skipped by `if date and metric` and the positional access of
the record loop stays in bounds).  Extraction succeeds and emits exactly
one record. -/
def exGridOk : Grid :=
  { ncols := 7
    rows := List.replicate 13 [] ++
      [ [Cell.empty, Cell.empty, Cell.empty, Cell.empty, Cell.empty,
         Cell.date 1, Cell.empty],
        [Cell.empty, Cell.empty, Cell.empty, Cell.empty, Cell.empty,
         Cell.str "M", Cell.str ""],
        [Cell.str "x", Cell.str "North", Cell.str "R1", Cell.str "T1",
         Cell.str "Trust One", Cell.num 120, Cell.num 95] ] }

/-- The record `extract_nhs_sheet exGridOk "S"` emits: note the value 95
comes from grid column 6, not from the metric-M column 5 (which holds
120), because of the off-by-one column offset. -/
def recOk : Rec :=
  { date := 1, region := Cell.str "North", trust_code := Cell.str "T1"
    trust_name := Cell.str "Trust One", metric := "S_M", value := 95 }

/-- Like `exGridOk`, but the cell of the (only) date-metric pair, grid
column 5, holds the non-numeric string `abc`. -/
def exGridStrCell : Grid :=
  { ncols := 7
    rows := List.replicate 13 [] ++
      [ [Cell.empty, Cell.empty, Cell.empty, Cell.empty, Cell.empty,
         Cell.date 1, Cell.empty],
        [Cell.empty, Cell.empty, Cell.empty, Cell.empty, Cell.empty,
         Cell.str "M", Cell.str ""],
        [Cell.str "x", Cell.str "North", Cell.str "R1", Cell.str "T1",
         Cell.str "Trust One", Cell.str "abc", Cell.num 95] ] }

/-- Like `exGridOk`, but every data cell of the data row holds a string:
column 5 the non-numeric `abc`, column 6 the numeric string `95`. -/
def exGridAllStr : Grid :=
  { ncols := 7
    rows := List.replicate 13 [] ++
      [ [Cell.empty, Cell.empty, Cell.empty, Cell.empty, Cell.empty,
         Cell.date 1, Cell.empty],
        [Cell.empty, Cell.empty, Cell.empty, Cell.empty, Cell.empty,
         Cell.str "M", Cell.str ""],
        [Cell.str "x", Cell.str "North", Cell.str "R1", Cell.str "T1",
         Cell.str "Trust One", Cell.str "abc", Cell.str "95"] ] }

/-- A grid whose row 13 holds the date only as the text string
`2025-01-01`, so no column resolves a date. -/
def exGridNoDates : Grid :=
  { ncols := 7
    rows := List.replicate 13 [] ++
      [ [Cell.empty, Cell.empty, Cell.empty, Cell.empty, Cell.empty,
         Cell.str "2025-01-01", Cell.str "2025-01-01"],
        [Cell.empty, Cell.empty, Cell.empty, Cell.empty, Cell.empty,
         Cell.str "Beds Available", Cell.str "Beds Occupied"],
        [Cell.str "x", Cell.str "North", Cell.str "R1", Cell.str "T1",
         Cell.str "Trust One", Cell.num 120, Cell.num 95] ] }

/-- Like `exGridOk`, but the only data row's `trust_name` cell (grid
column 4) is missing, so every row is dropped by the facility filter. -/
def exGridNoTrust : Grid :=
  { ncols := 7
    rows := List.replicate 13 [] ++
      [ [Cell.empty, Cell.empty, Cell.empty, Cell.empty, Cell.empty,
         Cell.date 1, Cell.empty],
        [Cell.empty, Cell.empty, Cell.empty, Cell.empty, Cell.empty,
         Cell.str "M", Cell.str ""],
        [Cell.str "x", Cell.str "North", Cell.str "R1", Cell.empty,
         Cell.empty, Cell.num 120, Cell.num 95] ] }

/-- Like `exGridOk`, but the metric name carries surrounding whitespace:
row 14, column 5 holds the string consisting of a space, `M`, and a
space. -/
def exGridPadMetric : Grid :=
  { ncols := 7
    rows := List.replicate 13 [] ++
      [ [Cell.empty, Cell.empty, Cell.empty, Cell.empty, Cell.empty,
         Cell.date 1, Cell.empty],
        [Cell.empty, Cell.empty, Cell.empty, Cell.empty, Cell.empty,
         Cell.str " M ", Cell.str ""],
        [Cell.str "x", Cell.str "North", Cell.str "R1", Cell.str "T1",
         Cell.str "Trust One", Cell.num 7, Cell.num 95] ] }

/-- A sheet with no cells at all; extraction fails reading header row 13.
Used to make every target sheet of a workbook fail. -/
def emptyGrid : Grid := { ncols := 0, rows := [] }

/-- A workbook all of whose sheets are empty: every per-sheet extraction
fails. -/
def wbAllFail : String → Grid := fun _ => emptyGrid

/-- A workbook where only the sheet `Flu` is usable: the other four
target sheets fail and are skipped. -/
def wbOneOk : String → Grid := fun s => if s = "Flu" then exGridOk else emptyGrid

/-- A weather fetcher (rows modelled as naturals) that fails for
Manchester and succeeds for every other city. -/
def wFetch : String → Except PyErr (List Nat) :=
  fun c => if c = "Manchester" then Except.error (PyErr.exc "net") else Except.ok [1]

/-- A trends fetcher that fails for one keyword and succeeds, with a
nonempty frame, for every other keyword. -/
def tFetch : String → Except PyErr (List Nat) :=
  fun k =>
    if k = "A&E wait times" then Except.error (PyErr.exc "quota")
    else Except.ok [2]

/-! Helper lemmas about the embedded pipeline. -/

theorem resolveDates_length (cells : List Cell) (last : Option Nat) :
    (resolveDates cells last).length = cells.length := by
  induction cells generalizing last with
  | nil => rfl
  | cons c rest ih => cases c <;> simp [resolveDates, ih]

theorem resolveDates_getElem_date (cells : List Cell) (last : Option Nat)
    (i : Nat) (d : Nat) (h : cells[i]? = some (Cell.date d)) :
    (resolveDates cells last)[i]? = some (some d) := by
  induction cells generalizing last i with
  | nil => simp at h
  | cons c rest ih =>
    cases i with
    | zero =>
      simp at h
      subst h
      simp [resolveDates]
    | succ j =>
      simp at h
      cases c <;> simpa [resolveDates] using ih _ _ h

theorem resolveDates_zero_nondate (c0 : Cell) (rest : List Cell)
    (last : Option Nat) (hnd : ∀ d, c0 ≠ Cell.date d) :
    (resolveDates (c0 :: rest) last)[0]? = some last := by
  cases c0 with
  | date d => exact absurd rfl (hnd d)
  | empty => simp [resolveDates]
  | str s => simp [resolveDates]
  | num n => simp [resolveDates]

theorem resolveDates_getElem_zero_nondate (cells : List Cell)
    (last : Option Nat) (c : Cell) (h : cells[0]? = some c)
    (hnd : ∀ d, c ≠ Cell.date d) :
    (resolveDates cells last)[0]? = some last := by
  cases cells with
  | nil => simp at h
  | cons c0 rest =>
    have hc : c0 = c := by simpa using h
    subst hc
    exact resolveDates_zero_nondate c0 rest last hnd

theorem resolveDates_getElem_succ_nondate (cells : List Cell)
    (last : Option Nat) (i : Nat) (c : Cell) (h : cells[i + 1]? = some c)
    (hnd : ∀ d, c ≠ Cell.date d) :
    (resolveDates cells last)[i + 1]? = (resolveDates cells last)[i]? := by
  induction cells generalizing last i with
  | nil => simp at h
  | cons c0 rest ih =>
    simp at h
    cases i with
    | zero =>
      cases c0 with
      | date d =>
        simp only [resolveDates]
        rw [List.getElem?_cons_succ, List.getElem?_cons_zero,
          resolveDates_getElem_zero_nondate rest (some d) c h hnd]
      | empty =>
        simp only [resolveDates]
        rw [List.getElem?_cons_succ, List.getElem?_cons_zero,
          resolveDates_getElem_zero_nondate rest last c h hnd]
      | str s =>
        simp only [resolveDates]
        rw [List.getElem?_cons_succ, List.getElem?_cons_zero,
          resolveDates_getElem_zero_nondate rest last c h hnd]
      | num n =>
        simp only [resolveDates]
        rw [List.getElem?_cons_succ, List.getElem?_cons_zero,
          resolveDates_getElem_zero_nondate rest last c h hnd]
    | succ j =>
      cases c0 <;>
        simpa [resolveDates] using ih _ j h

theorem mem_mkDateMetricMap (i : Nat) (ds : List (Option Nat))
    (ms : List Cell) (dm : DM) (hmem : dm ∈ mkDateMetricMap i ds ms) :
    ∃ j d m, ds[j]? = some (some d) ∧ ms[j]? = some m ∧ pyTruthy m = true
      ∧ dm.col_idx = i + j + 4 ∧ dm.date = d
      ∧ dm.metric = pyStrip (cellPyStr m) := by
  induction ds generalizing i ms with
  | nil => simp [mkDateMetricMap] at hmem
  | cons od ds ih =>
    cases ms with
    | nil => simp [mkDateMetricMap] at hmem
    | cons m ms =>
      simp only [mkDateMetricMap] at hmem
      by_cases hc : (od.isSome && pyTruthy m) = true
      · rw [if_pos hc] at hmem
        rcases List.mem_cons.mp hmem with heq | htail
        · obtain ⟨d, hd⟩ := Option.isSome_iff_exists.mp (Bool.and_elim_left hc)
          refine ⟨0, d, m, by simp [hd], by simp, Bool.and_elim_right hc, ?_, ?_, ?_⟩
          · subst heq; rfl
          · subst heq; simp [hd]
          · subst heq; rfl
        · obtain ⟨j, d, m1, h1, h2, h3, h4, h5, h6⟩ := ih (i + 1) ms htail
          exact ⟨j + 1, d, m1, by simpa using h1, by simpa using h2, h3,
            by omega, h5, h6⟩
      · rw [if_neg hc] at hmem
        obtain ⟨j, d, m1, h1, h2, h3, h4, h5, h6⟩ := ih (i + 1) ms hmem
        exact ⟨j + 1, d, m1, by simpa using h1, by simpa using h2, h3,
          by omega, h5, h6⟩

theorem mkDateMetricMap_mem_of (i : Nat) (ds : List (Option Nat))
    (ms : List Cell) (j d : Nat) (m : Cell) (hd : ds[j]? = some (some d))
    (hm : ms[j]? = some m) (ht : pyTruthy m = true) :
    ({ col_idx := i + j + 4, date := d, metric := pyStrip (cellPyStr m) } : DM)
      ∈ mkDateMetricMap i ds ms := by
  induction ds generalizing i j ms with
  | nil => simp at hd
  | cons od ds ih =>
    cases ms with
    | nil => simp at hm
    | cons m0 ms =>
      cases j with
      | zero =>
        simp at hd hm
        subst hd
        subst hm
        simp [mkDateMetricMap, ht]
      | succ j =>
        simp at hd hm
        have htail := ih (i + 1) ms j hd hm
        have harith : i + 1 + j + 4 = i + (j + 1) + 4 := by omega
        rw [harith] at htail
        simp only [mkDateMetricMap]
        by_cases hc : (od.isSome && pyTruthy m0) = true
        · rw [if_pos hc]; exact List.mem_cons_of_mem _ htail
        · rw [if_neg hc]; exact htail

theorem rowRawRecords_ok_iff (cols : List Cell) (sheet : String)
    (row : List Cell) (dmap : List DM) (l : List RawRec)
    (hok : rowRawRecords cols sheet row dmap = Except.ok l) (x : RawRec) :
    x ∈ l ↔ ∃ dm ∈ dmap, ∃ h : dm.col_idx < cols.length,
      x = mkRaw cols sheet row dm (cols.get ⟨dm.col_idx, h⟩) := by
  induction dmap generalizing l with
  | nil =>
    simp only [rowRawRecords, Except.ok.injEq] at hok
    subst hok
    simp
  | cons dm rest ih =>
    simp only [rowRawRecords] at hok
    by_cases hb : dm.col_idx < cols.length
    · rw [dif_pos hb] at hok
      cases htail : rowRawRecords cols sheet row rest with
      | error e => rw [htail] at hok; exact absurd hok (by simp)
      | ok tail =>
        rw [htail] at hok
        simp only [Except.ok.injEq] at hok
        subst hok
        constructor
        · intro hx
          rcases List.mem_cons.mp hx with hx | hx
          · exact ⟨dm, List.mem_cons_self dm rest, hb, hx⟩
          · obtain ⟨dm1, h1, h2, h3⟩ := (ih tail htail).mp hx
            exact ⟨dm1, List.mem_cons_of_mem dm h1, h2, h3⟩
        · rintro ⟨dm1, h1, h2, h3⟩
          rcases List.mem_cons.mp h1 with heq | h1
          · subst heq
            subst h3
            exact List.mem_cons_self _ _
          · exact List.mem_cons_of_mem _ ((ih tail htail).mpr ⟨dm1, h1, h2, h3⟩)
    · rw [dif_neg hb] at hok
      exact absurd hok (by simp)

theorem buildRawRecords_ok_iff (cols : List Cell) (sheet : String)
    (rows : List (List Cell)) (dmap : List DM) (raws : List RawRec)
    (hok : buildRawRecords cols sheet rows dmap = Except.ok raws) (x : RawRec) :
    x ∈ raws ↔ ∃ row ∈ rows, ∃ l, rowRawRecords cols sheet row dmap = Except.ok l
      ∧ x ∈ l := by
  induction rows generalizing raws with
  | nil =>
    simp only [buildRawRecords, Except.ok.injEq] at hok
    subst hok
    simp
  | cons r rs ih =>
    simp only [buildRawRecords] at hok
    cases hhead : rowRawRecords cols sheet r dmap with
    | error e => rw [hhead] at hok; exact absurd hok (by simp)
    | ok recs =>
      rw [hhead] at hok
      cases hrest : buildRawRecords cols sheet rs dmap with
      | error e => rw [hrest] at hok; exact absurd hok (by simp)
      | ok rest =>
        rw [hrest] at hok
        simp only [Except.ok.injEq] at hok
        subst hok
        constructor
        · intro hx
          rcases List.mem_append.mp hx with hx | hx
          · exact ⟨r, List.mem_cons_self _ _, recs, hhead, hx⟩
          · obtain ⟨row, h1, l, h2, h3⟩ := (ih rest hrest).mp hx
            exact ⟨row, List.mem_cons_of_mem _ h1, l, h2, h3⟩
        · rintro ⟨row, h1, l, h2, h3⟩
          rcases List.mem_cons.mp h1 with heq | h1
          · subst heq
            rw [hhead] at h2
            simp only [Except.ok.injEq] at h2
            subst h2
            exact List.mem_append.mpr (Or.inl h3)
          · exact List.mem_append.mpr
              (Or.inr ((ih rest hrest).mpr ⟨row, h1, l, h2, h3⟩))

theorem buildRawRecords_row_ok (cols : List Cell) (sheet : String)
    (rows : List (List Cell)) (dmap : List DM) (raws : List RawRec)
    (hok : buildRawRecords cols sheet rows dmap = Except.ok raws)
    (row : List Cell) (hrow : row ∈ rows) :
    ∃ l, rowRawRecords cols sheet row dmap = Except.ok l := by
  induction rows generalizing raws with
  | nil => simp at hrow
  | cons r rs ih =>
    simp only [buildRawRecords] at hok
    cases hhead : rowRawRecords cols sheet r dmap with
    | error e => rw [hhead] at hok; exact absurd hok (by simp)
    | ok recs =>
      rw [hhead] at hok
      cases hrest : buildRawRecords cols sheet rs dmap with
      | error e => rw [hrest] at hok; exact absurd hok (by simp)
      | ok rest =>
        rcases List.mem_cons.mp hrow with heq | hmem
        · subst heq; exact ⟨recs, hhead⟩
        · exact ih rest hrest hmem

theorem extract_ok_inv (g : Grid) (sheet : String) (recs : List Rec)
    (hok : extract_nhs_sheet g sheet = Except.ok recs) :
    ∃ raws, buildRawRecords (colsOf g) sheet (filteredRows g) (dmapOf g)
        = Except.ok raws
      ∧ raws ≠ [] ∧ recs = raws.filterMap coerceRec := by
  simp only [extract_nhs_sheet] at hok
  split at hok
  · exact absurd hok (by simp)
  · split at hok
    · exact absurd hok (by simp)
    · split at hok
      next e heq => exact absurd hok (by simp)
      next raws heq =>
        split at hok
        · exact absurd hok (by simp)
        next h3 =>
          simp only [Except.ok.injEq] at hok
          refine ⟨raws, heq, fun hnil => h3 (by simp [hnil]), hok.symm⟩

theorem coerceRec_eq_some (raw : RawRec) (r : Rec)
    (h : coerceRec raw = some r) :
    toNumeric raw.value = some r.value ∧ r.date = raw.date
      ∧ r.region = raw.region ∧ r.trust_code = raw.trust_code
      ∧ r.trust_name = raw.trust_name ∧ r.metric = raw.metric := by
  cases hv : toNumeric raw.value with
  | none => simp [coerceRec, hv] at h
  | some v =>
    simp only [coerceRec, hv, Option.some.injEq] at h
    subst h
    simp

theorem coerceRec_of_toNumeric (raw : RawRec) (v : Int)
    (h : toNumeric raw.value = some v) :
    coerceRec raw =
      some { date := raw.date, region := raw.region,
             trust_code := raw.trust_code, trust_name := raw.trust_name,
             metric := raw.metric, value := v } := by
  simp [coerceRec, h]

theorem labelIndex_region (ms : List Cell) :
    labelIndex (dfColumns ms) (Cell.str "region") = 0 := rfl

theorem labelIndex_trust_code (ms : List Cell) :
    labelIndex (dfColumns ms) (Cell.str "trust_code") = 1 := rfl

theorem labelIndex_trust_name (ms : List Cell) :
    labelIndex (dfColumns ms) (Cell.str "trust_name") = 2 := rfl

theorem mkRaw_fields (ms : List Cell) (sheet : String) (row : List Cell)
    (dm : DM) (colName : Cell) :
    (mkRaw (dfColumns ms) sheet row dm colName).date = dm.date
      ∧ (mkRaw (dfColumns ms) sheet row dm colName).region
          = row.getD 1 Cell.empty
      ∧ (mkRaw (dfColumns ms) sheet row dm colName).trust_code
          = row.getD 3 Cell.empty
      ∧ (mkRaw (dfColumns ms) sheet row dm colName).trust_name
          = row.getD 4 Cell.empty
      ∧ (mkRaw (dfColumns ms) sheet row dm colName).metric
          = sheet ++ "_" ++ dm.metric := by
  refine ⟨rfl, ?_, ?_, ?_, rfl⟩
  · simp [mkRaw, rowLabelGet, labelIndex_region, dfDataCell]
  · simp [mkRaw, rowLabelGet, labelIndex_trust_code, dfDataCell]
  · simp [mkRaw, rowLabelGet, labelIndex_trust_name, dfDataCell]

theorem mem_filteredRows (g : Grid) (row : List Cell)
    (h : row ∈ filteredRows g) :
    row ∈ g.rows.drop 15 ∧ keepAnyData g row = true ∧ keepTrust row = true := by
  simp only [filteredRows, List.mem_filter] at h
  exact ⟨h.1.1, h.1.2, h.2⟩

theorem trust_nonempty_of_mem_filteredRows (g : Grid) (row : List Cell)
    (h : row ∈ filteredRows g) : row.getD 4 Cell.empty ≠ Cell.empty := by
  have hk := (mem_filteredRows g row h).2.2
  simp only [keepTrust, dfDataCell, bne_iff_ne, ne_eq, Bool.not_eq_true',
    beq_eq_false_iff_ne] at hk
  exact hk

theorem dmap_date_mem (g : Grid) (dm : DM) (h : dm ∈ dmapOf g) :
    some dm.date ∈ resolveDates (datesCells g) Option.none := by
  obtain ⟨j, d, m, h1, h2, h3, h4, h5, h6⟩ :=
    mem_mkDateMetricMap 0 (resolveDates (datesCells g) Option.none)
      (metricsCells g) dm h
  rw [h5]
  exact List.getElem?_mem h1

theorem rec_origin (g : Grid) (sheet : String) (recs : List Rec) (r : Rec)
    (hok : extract_nhs_sheet g sheet = Except.ok recs) (hr : r ∈ recs) :
    ∃ row ∈ filteredRows g, ∃ dm ∈ dmapOf g,
      ∃ h : dm.col_idx < (colsOf g).length,
        toNumeric (rowLabelGet (colsOf g) row
            ((colsOf g).get ⟨dm.col_idx, h⟩)) = some r.value
        ∧ r.date = dm.date
        ∧ r.region = row.getD 1 Cell.empty
        ∧ r.trust_code = row.getD 3 Cell.empty
        ∧ r.trust_name = row.getD 4 Cell.empty
        ∧ r.metric = sheet ++ "_" ++ dm.metric := by
  obtain ⟨raws, hb, hne, hrecs⟩ := extract_ok_inv g sheet recs hok
  subst hrecs
  obtain ⟨raw, hraw, hco⟩ := List.mem_filterMap.mp hr
  obtain ⟨hval, hd, hreg, htc, htn, hm⟩ := coerceRec_eq_some raw r hco
  obtain ⟨row, hrow, l, hl, hx⟩ := (buildRawRecords_ok_iff _ _ _ _ _ hb raw).mp hraw
  obtain ⟨dm, hdm, hlt, hxe⟩ := (rowRawRecords_ok_iff _ _ _ _ _ hl raw).mp hx
  subst hxe
  have hf := mkRaw_fields (metricsCells g) sheet row dm
    ((colsOf g).get ⟨dm.col_idx, hlt⟩)
  refine ⟨row, hrow, dm, hdm, hlt, ?_, ?_, ?_, ?_, ?_, ?_⟩
  · exact hval
  · exact hd.trans hf.1
  · exact hreg.trans hf.2.1
  · exact htc.trans hf.2.2.1
  · exact htn.trans hf.2.2.2.1
  · exact hm.trans hf.2.2.2.2

theorem rec_complete (g : Grid) (sheet : String) (recs : List Rec)
    (hok : extract_nhs_sheet g sheet = Except.ok recs) (row : List Cell)
    (hrow : row ∈ filteredRows g) (dm : DM) (hdm : dm ∈ dmapOf g)
    (hlt : dm.col_idx < (colsOf g).length) (x : Int)
    (hx : toNumeric (rowLabelGet (colsOf g) row
        ((colsOf g).get ⟨dm.col_idx, hlt⟩)) = some x) :
    ∃ r ∈ recs, r.date = dm.date ∧ r.metric = sheet ++ "_" ++ dm.metric
      ∧ r.value = x := by
  obtain ⟨raws, hb, hne, hrecs⟩ := extract_ok_inv g sheet recs hok
  subst hrecs
  obtain ⟨l, hl⟩ := buildRawRecords_row_ok _ _ _ _ _ hb row hrow
  have hraw : mkRaw (colsOf g) sheet row dm
      ((colsOf g).get ⟨dm.col_idx, hlt⟩) ∈ raws := by
    refine (buildRawRecords_ok_iff _ _ _ _ _ hb _).mpr ⟨row, hrow, l, hl, ?_⟩
    exact (rowRawRecords_ok_iff _ _ _ _ _ hl _).mpr ⟨dm, hdm, hlt, rfl⟩
  have hf := mkRaw_fields (metricsCells g) sheet row dm
    ((colsOf g).get ⟨dm.col_idx, hlt⟩)
  have hco := coerceRec_of_toNumeric
    (mkRaw (colsOf g) sheet row dm ((colsOf g).get ⟨dm.col_idx, hlt⟩)) x hx
  refine ⟨_, List.mem_filterMap.mpr ⟨_, hraw, hco⟩, ?_, ?_, rfl⟩
  · exact hf.1
  · exact hf.2.2.2.2

/-- C1: the spec's end-to-end example claims that `extract_nhs_sheet`
applied to `exGrid1` (row 13: the date 2025-01-01 in both data columns;
row 14: `Beds Available` / `Beds Occupied`; row 15: one trust's row with
values 120 and 95) yields two records.  The code instead raises
`IndexError`: the record loop computes `df_data.columns[i + 4]`, but
after dropping two of the five metadata columns only three remain, so the
second date-metric pair addresses position 5 of a 5-element column list.
This theorem evaluates the embedded code at the failing input. -/
theorem c1_end_to_end_raises :
    extract_nhs_sheet exGrid1 "Total G&A beds"
      = Except.error PyErr.indexError := by decide

/-- C2: the per-column date resolution of row 13 is a left-to-right
forward fill: the resolved list has one entry per data column; a column
whose cell is an actual date resolves to it; a column whose cell is not a
date copies the previous column's resolution, and the first column
resolves to nothing in that case.  Consequently, whenever every resolved
date of a grid is either absent or one single date D, every record that
`extract_nhs_sheet` emits carries date D. -/
theorem c2_forward_fill_dates :
    (∀ (cells : List Cell) (last : Option Nat),
      (resolveDates cells last).length = cells.length)
    ∧ (∀ (cells : List Cell) (i d : Nat), cells[i]? = some (Cell.date d) →
        (resolveDates cells Option.none)[i]? = some (some d))
    ∧ (∀ (cells : List Cell) (c : Cell), cells[0]? = some c →
        (∀ d, c ≠ Cell.date d) →
        (resolveDates cells Option.none)[0]? = some Option.none)
    ∧ (∀ (cells : List Cell) (i : Nat) (c : Cell), cells[i + 1]? = some c →
        (∀ d, c ≠ Cell.date d) →
        (resolveDates cells Option.none)[i + 1]?
          = (resolveDates cells Option.none)[i]?)
    ∧ (∀ (g : Grid) (sheet : String) (recs : List Rec) (D : Nat),
        extract_nhs_sheet g sheet = Except.ok recs →
        (∀ od ∈ resolveDates (datesCells g) Option.none,
          od = Option.none ∨ od = some D) →
        ∀ r ∈ recs, r.date = D) := by
  refine ⟨resolveDates_length, fun cells i d h =>
    resolveDates_getElem_date cells Option.none i d h,
    fun cells c h hnd => resolveDates_getElem_zero_nondate cells Option.none c h hnd,
    fun cells i c h hnd => resolveDates_getElem_succ_nondate cells Option.none i c h hnd,
    ?_⟩
  intro g sheet recs D hok hall r hr
  obtain ⟨row, hrow, dm, hdm, hlt, hval, hdate, _⟩ :=
    rec_origin g sheet recs r hok hr
  have hmem := dmap_date_mem g dm hdm
  rcases hall (some dm.date) hmem with h | h
  · exact absurd h (by simp)
  · rw [hdate]
    exact Option.some_injective _ h

/-- Witness for C2: on the concrete grid `exGridOk`, whose only resolved
dates are `some 1`, extraction succeeds with one record and that record
carries date 1. -/
theorem c2_forward_fill_dates_witness :
    extract_nhs_sheet exGridOk "S" = Except.ok [recOk] ∧ recOk.date = 1 :=
  ⟨by decide,
    c2_forward_fill_dates.2.2.2.2 exGridOk "S" [recOk] 1 (by decide) (by decide)
      recOk (by decide)⟩

/-- C3: a data row whose facility-name cell (grid column 4, the
`trust_name` metadata column) is missing is removed by the filter of line
75 and therefore contributes no records, whatever its data cells hold:
no such row belongs to `filteredRows`, and every emitted record
originates from a retained row, whose `trust_name` cell it copies and
which is non-missing. -/
theorem c3_missing_facility_no_records :
    (∀ (g : Grid) (row : List Cell), row.getD 4 Cell.empty = Cell.empty →
        row ∉ filteredRows g)
    ∧ (∀ (g : Grid) (sheet : String) (recs : List Rec),
        extract_nhs_sheet g sheet = Except.ok recs →
        ∀ r ∈ recs, ∃ row ∈ filteredRows g,
          r.trust_name = row.getD 4 Cell.empty
          ∧ row.getD 4 Cell.empty ≠ Cell.empty) := by
  constructor
  · intro g row hempty hmem
    exact trust_nonempty_of_mem_filteredRows g row hmem hempty
  · intro g sheet recs hok r hr
    obtain ⟨row, hrow, dm, hdm, hlt, hval, hdate, hreg, htc, htn, hm⟩ :=
      rec_origin g sheet recs r hok hr
    exact ⟨row, hrow, htn, trust_nonempty_of_mem_filteredRows g row hrow⟩

/-- Witness for C3: the data row of `exGridNoTrust` has a missing
facility name and is not retained; and on `exGridOk` the emitted record
originates from a retained row with a non-missing facility name. -/
theorem c3_missing_facility_no_records_witness :
    ([Cell.str "x", Cell.str "North", Cell.str "R1", Cell.empty, Cell.empty,
        Cell.num 120, Cell.num 95] ∉ filteredRows exGridNoTrust)
    ∧ ∃ row ∈ filteredRows exGridOk,
        recOk.trust_name = row.getD 4 Cell.empty
        ∧ row.getD 4 Cell.empty ≠ Cell.empty :=
  ⟨c3_missing_facility_no_records.1 exGridNoTrust _ (by decide),
    c3_missing_facility_no_records.2 exGridOk "S" [recOk] (by decide)
      recOk (by decide)⟩

/-- C4 counterexample: the claim says the coercion rejects string cell
values, so no cell holding a string yields a record.  On `exGridAllStr`
both data cells of the data row hold strings (`abc` in column 5, `95` in
column 6), yet extraction emits one record with value 95: the numeric
string `95` coerces under `pd.to_numeric` and (because of the off-by-one
column offset) is the value the record loop consults for the metric-M
pair. -/
theorem c4_string_cell_yields_record :
    cellAt exGridAllStr 15 5 = Cell.str "abc"
    ∧ cellAt exGridAllStr 15 6 = Cell.str "95"
    ∧ extract_nhs_sheet exGridAllStr "S" = Except.ok [recOk]
    ∧ recOk.value = 95 := by decide

/-- C4 amended: `pd.to_numeric(errors='coerce')` accepts int-like cell
values and numeric strings, and rejects blanks and non-numeric strings;
a record is emitted for a (row, date-metric pair) exactly when the value
the loop consults for that pair coerces — but the consulted value, found
by looking up the column label at position `col_idx` (the pair index
plus 4, an off-by-one since only 3 metadata columns remain), belongs to
the first column bearing the NEXT metric column's label, not to the
pair's own cell. -/
theorem c4_value_coercion_amended :
    (∀ (c : Cell) (x : Int), toNumeric c = some x →
        c = Cell.num x ∨ ∃ s, c = Cell.str s ∧ parseNumStr s = some x)
    ∧ toNumeric Cell.empty = Option.none
    ∧ (∀ n : Int, toNumeric (Cell.num n) = some n)
    ∧ (∀ (g : Grid) (sheet : String) (recs : List Rec),
        extract_nhs_sheet g sheet = Except.ok recs →
        ∀ r ∈ recs, ∃ row ∈ filteredRows g, ∃ dm ∈ dmapOf g,
          ∃ h : dm.col_idx < (colsOf g).length,
            toNumeric (rowLabelGet (colsOf g) row
                ((colsOf g).get ⟨dm.col_idx, h⟩)) = some r.value
            ∧ r.date = dm.date ∧ r.metric = sheet ++ "_" ++ dm.metric)
    ∧ (∀ (g : Grid) (sheet : String) (recs : List Rec),
        extract_nhs_sheet g sheet = Except.ok recs →
        ∀ row ∈ filteredRows g, ∀ dm ∈ dmapOf g,
          ∀ (h : dm.col_idx < (colsOf g).length) (x : Int),
            toNumeric (rowLabelGet (colsOf g) row
                ((colsOf g).get ⟨dm.col_idx, h⟩)) = some x →
            ∃ r ∈ recs, r.date = dm.date ∧ r.metric = sheet ++ "_" ++ dm.metric
              ∧ r.value = x) := by
  refine ⟨?_, rfl, fun n => rfl, ?_, ?_⟩
  · intro c x h
    cases c with
    | num n =>
      left
      have hnx : n = x := Option.some_injective _ h
      rw [hnx]
    | str s => exact Or.inr ⟨s, rfl, h⟩
    | empty => simp [toNumeric] at h
    | date d => simp [toNumeric] at h
  · intro g sheet recs hok r hr
    obtain ⟨row, hrow, dm, hdm, hlt, hval, hdate, _, _, _, hm⟩ :=
      rec_origin g sheet recs r hok hr
    exact ⟨row, hrow, dm, hdm, hlt, hval, hdate, hm⟩
  · intro g sheet recs hok row hrow dm hdm h x hx
    exact rec_complete g sheet recs hok row hrow dm hdm h x hx

/-- Witness for C4: on the concrete grid `exGridAllStr` the emission
characterisation and the coercion characterisation hold at the emitted
record and the consulted string cell. -/
theorem c4_value_coercion_amended_witness :
    (Cell.str "95" = Cell.num 95
      ∨ ∃ s, Cell.str "95" = Cell.str s ∧ parseNumStr s = some 95)
    ∧ (∃ row ∈ filteredRows exGridAllStr, ∃ dm ∈ dmapOf exGridAllStr,
        ∃ h : dm.col_idx < (colsOf exGridAllStr).length,
          toNumeric (rowLabelGet (colsOf exGridAllStr) row
              ((colsOf exGridAllStr).get ⟨dm.col_idx, h⟩)) = some recOk.value
          ∧ recOk.date = dm.date ∧ recOk.metric = "S" ++ "_" ++ dm.metric) :=
  ⟨c4_value_coercion_amended.1 (Cell.str "95") 95 (by decide),
    (c4_value_coercion_amended.2.2.2.1 exGridAllStr "S" [recOk] (by decide)
      recOk (by decide)).imp
      (fun row h => h)⟩

/-- C5: the claim says a (row, column) pair whose cell is a non-numeric
string or missing yields no record.  On `exGridStrCell` the only
date-metric pair is the metric-M pair of grid column 5, whose cell is
the non-numeric string `abc` (its coercion fails); yet the code emits a
record for that pair, with value 95 taken from the neighbouring column 6
because of the off-by-one column offset.  This theorem evaluates the
embedded code at the failing input. -/
theorem c5_nonnumeric_cell_still_emits :
    cellAt exGridStrCell 15 5 = Cell.str "abc"
    ∧ toNumeric (Cell.str "abc") = Option.none
    ∧ dmapOf exGridStrCell = [{ col_idx := 4, date := 1, metric := "M" }]
    ∧ extract_nhs_sheet exGridStrCell "S" = Except.ok [recOk] := by decide

/-- C6: the claim says a sheet with zero resolvable dates, and likewise a
sheet all of whose rows lack a facility name, yields an empty result and
no error.  In both cases the record list is empty, `pd.DataFrame([])` has
no `value` column, and line 106 raises `KeyError`: on `exGridNoDates`
(dates present only as text, so nothing resolves) and on `exGridNoTrust`
(every row dropped by the facility filter) the code raises instead of
returning an empty result.  This theorem evaluates the embedded code at
both failing inputs. -/
theorem c6_empty_result_raises :
    resolveDates (datesCells exGridNoDates) Option.none
        = [Option.none, Option.none]
    ∧ extract_nhs_sheet exGridNoDates "Total G&A beds"
        = Except.error PyErr.keyError
    ∧ (exGridNoTrust.rows.drop 15).all
        (fun row => row.getD 4 Cell.empty == Cell.empty) = true
    ∧ extract_nhs_sheet exGridNoTrust "S" = Except.error PyErr.keyError := by
  decide

/-- C7 counterexample: the claim says a per-sheet extraction failure is
never fatal to the whole run.  On the workbook `wbAllFail` every target
sheet fails, so `all_data` stays empty and `pd.concat([])` at line 154
raises `ValueError`: the run fails. -/
theorem c7_all_fail_fatal :
    targetSheets.all
        (fun s => extract_nhs_sheet (wbAllFail s) s
          == Except.error PyErr.indexError) = true
    ∧ extract_all_nhs_data wbAllFail = Except.error PyErr.valueError := by
  decide

/-- C7 amended: a per-sheet extraction failure is caught and skipped and
the remaining target sheets are still processed; and whenever at least
one target sheet succeeds, the whole run succeeds.  (Only when every
sheet fails does the final concatenation raise.) -/
theorem c7_per_sheet_failure_skipped :
    (∀ (wb : String → Grid) (pre : List String) (s : String)
        (post : List String) (e : PyErr),
        extract_nhs_sheet (wb s) s = Except.error e →
        collectSheets wb (pre ++ s :: post)
          = collectSheets wb pre ++ collectSheets wb post)
    ∧ (∀ wb : String → Grid,
        (∃ s ∈ targetSheets, ∃ recs, extract_nhs_sheet (wb s) s = Except.ok recs) →
        ∃ l, extract_all_nhs_data wb = Except.ok l) := by
  constructor
  · intro wb pre s post e h
    induction pre with
    | nil => simp [collectSheets, h]
    | cons p ps ih =>
      cases hp : extract_nhs_sheet (wb p) p with
      | ok r => simp [collectSheets, hp, ih]
      | error e2 => simp [collectSheets, hp, ih]
  · intro wb hex
    have hne : ∀ ss : List String,
        (∃ s ∈ ss, ∃ recs, extract_nhs_sheet (wb s) s = Except.ok recs) →
        collectSheets wb ss ≠ [] := by
      intro ss
      induction ss with
      | nil => rintro ⟨s, hs, _⟩; simp at hs
      | cons a as ih =>
        rintro ⟨s, hs, recs, hrecs⟩
        rcases List.mem_cons.mp hs with rfl | hs
        · simp [collectSheets, hrecs]
        · cases ha : extract_nhs_sheet (wb a) a with
          | ok r => simp [collectSheets, ha]
          | error e => simpa [collectSheets, ha] using ih ⟨s, hs, recs, hrecs⟩
    refine ⟨(collectSheets wb targetSheets).flatten, ?_⟩
    simp only [extract_all_nhs_data]
    rw [if_neg ?_]
    intro hempty
    exact hne targetSheets hex (List.isEmpty_iff.mp hempty)

/-- Witness for C7: on `wbOneOk` the first target sheet fails and is
skipped, and the run still succeeds because the sheet `Flu` succeeds. -/
theorem c7_per_sheet_failure_skipped_witness :
    collectSheets wbOneOk
        (["Total G&A beds"] ++ "Adult G&A beds"
          :: ["Adult critical care", "Flu", "RSV"])
      = collectSheets wbOneOk ["Total G&A beds"]
        ++ collectSheets wbOneOk ["Adult critical care", "Flu", "RSV"]
    ∧ ∃ l, extract_all_nhs_data wbOneOk = Except.ok l :=
  ⟨c7_per_sheet_failure_skipped.1 wbOneOk ["Total G&A beds"] "Adult G&A beds"
      ["Adult critical care", "Flu", "RSV"] PyErr.indexError (by decide),
    c7_per_sheet_failure_skipped.2 wbOneOk
      ⟨"Flu", by decide, [{ recOk with metric := "Flu_M" }], by decide⟩⟩

/-- C8 counterexample: the claim says the emitted metric field equals the
sheet name, an underscore, and the metric name read from row 14.  On
`exGridPadMetric` the row-14 cell is the padded string consisting of a
space, `M`, and a space, but the emitted metric is `S_M`: the code
applies `str(...).strip()` to the cell before concatenating (line 85), so
the field is not the verbatim row-14 content. -/
theorem c8_metric_not_verbatim :
    cellAt exGridPadMetric 14 5 = Cell.str " M "
    ∧ extract_nhs_sheet exGridPadMetric "S" = Except.ok [recOk]
    ∧ recOk.metric ≠ "S" ++ "_" ++ " M " := by decide

/-- C8 amended: every emitted record copies the region, trust-code and
trust-name cells (grid columns 1, 3 and 4) of the retained data row it
derives from verbatim, and its metric field equals the sheet name, an
underscore, and a row-14 metric cell rendered by Python `str` and
stripped of surrounding whitespace. -/
theorem c8_metadata_copied_metric_stripped :
    ∀ (g : Grid) (sheet : String) (recs : List Rec),
      extract_nhs_sheet g sheet = Except.ok recs →
      ∀ r ∈ recs, ∃ row ∈ filteredRows g,
        r.region = row.getD 1 Cell.empty
        ∧ r.trust_code = row.getD 3 Cell.empty
        ∧ r.trust_name = row.getD 4 Cell.empty
        ∧ ∃ m ∈ metricsCells g,
            r.metric = sheet ++ "_" ++ pyStrip (cellPyStr m) := by
  intro g sheet recs hok r hr
  obtain ⟨row, hrow, dm, hdm, hlt, hval, hdate, hreg, htc, htn, hm⟩ :=
    rec_origin g sheet recs r hok hr
  obtain ⟨j, d, m, h1, h2, h3, h4, h5, h6⟩ :=
    mem_mkDateMetricMap 0 (resolveDates (datesCells g) Option.none)
      (metricsCells g) dm hdm
  exact ⟨row, hrow, hreg, htc, htn, m, List.getElem?_mem h2, by rw [hm, h6]⟩

/-- Witness for C8: on `exGridOk` the emitted record copies the
metadata of the retained row and carries the stripped metric name. -/
theorem c8_metadata_copied_metric_stripped_witness :
    ∃ row ∈ filteredRows exGridOk,
      recOk.region = row.getD 1 Cell.empty
      ∧ recOk.trust_code = row.getD 3 Cell.empty
      ∧ recOk.trust_name = row.getD 4 Cell.empty
      ∧ ∃ m ∈ metricsCells exGridOk,
          recOk.metric = "S" ++ "_" ++ pyStrip (cellPyStr m) :=
  c8_metadata_copied_metric_stripped exGridOk "S" [recOk] (by decide)
    recOk (by decide)

/-- C9: in `download_weather_data` and `download_google_trends`, a failed
fetch for one city (keyword) is skipped and the loop continues with the
remaining items; every successful item's rows appear in the combined
result. -/
theorem c9_best_effort_loops :
    (∀ (α : Type) (fetch : String → Except PyErr (List α))
        (pre : List String) (c : String) (post : List String) (e : PyErr),
        fetch c = Except.error e →
        collectCities fetch (pre ++ c :: post)
          = collectCities fetch pre ++ collectCities fetch post)
    ∧ (∀ (α : Type) (fetch : String → Except PyErr (List α))
        (pre : List String) (k : String) (post : List String) (e : PyErr),
        fetch k = Except.error e →
        collectKeywords fetch (pre ++ k :: post)
          = collectKeywords fetch pre ++ collectKeywords fetch post)
    ∧ (∀ (α : Type) (fetch : String → Except PyErr (List α))
        (c : String) (rows : List α) (x : α), c ∈ ukCities →
        fetch c = Except.ok rows → x ∈ rows →
        x ∈ download_weather_data fetch)
    ∧ (∀ (α : Type) (init : Except PyErr Unit)
        (fetch : String → Except PyErr (List α))
        (k : String) (rows : List α) (x : α), k ∈ trendsKeywords →
        init = Except.ok () → fetch k = Except.ok rows → x ∈ rows →
        x ∈ download_google_trends init fetch) := by
  refine ⟨?_, ?_, ?_, ?_⟩
  · intro α fetch pre c post e h
    induction pre with
    | nil => simp [collectCities, h]
    | cons p ps ih =>
      cases hp : fetch p with
      | ok rows => simp [collectCities, hp, ih]
      | error e2 => simp [collectCities, hp, ih]
  · intro α fetch pre k post e h
    induction pre with
    | nil => simp [collectKeywords, h]
    | cons p ps ih =>
      cases hp : fetch p with
      | ok rows =>
        by_cases hre : rows.isEmpty <;> simp [collectKeywords, hp, hre, ih]
      | error e2 => simp [collectKeywords, hp, ih]
  · intro α fetch c rows x hc hrows hx
    have hmem : ∀ cs : List String, c ∈ cs →
        rows ∈ collectCities fetch cs := by
      intro cs
      induction cs with
      | nil => intro h; simp at h
      | cons a as ih =>
        intro h
        rcases List.mem_cons.mp h with rfl | h
        · simp [collectCities, hrows]
        · have hrec := ih h
          cases ha : fetch a with
          | ok r =>
            simp only [collectCities, ha]
            exact List.mem_cons_of_mem _ hrec
          | error e =>
            simpa [collectCities, ha] using hrec
    exact List.mem_flatten.mpr ⟨rows, hmem ukCities hc, hx⟩
  · intro α init fetch k rows x hk hinit hrows hx
    subst hinit
    have hne : rows.isEmpty = false := by
      cases rows with
      | nil => simp at hx
      | cons a as => rfl
    have hmem : ∀ ks : List String, k ∈ ks →
        rows ∈ collectKeywords fetch ks := by
      intro ks
      induction ks with
      | nil => intro h; simp at h
      | cons a as ih =>
        intro h
        rcases List.mem_cons.mp h with rfl | h
        · simp [collectKeywords, hrows, hne]
        · have hrec := ih h
          cases ha : fetch a with
          | ok r =>
            by_cases hre : r.isEmpty = true
            · simpa [collectKeywords, ha, hre] using hrec
            · simp only [collectKeywords, ha, hre, if_neg]
              exact List.mem_cons_of_mem _ hrec
          | error e =>
            simpa [collectKeywords, ha] using hrec
    exact List.mem_flatten.mpr ⟨rows, hmem trendsKeywords hk, hx⟩

/-- Witness for C9: with the concrete fetchers `wFetch` (fails for
Manchester) and `tFetch` (fails for one keyword), the failing item is
skipped while the loop continues, and a successful item's row appears in
the combined output of each download function. -/
theorem c9_best_effort_loops_witness :
    collectCities wFetch
        (["London"] ++ "Manchester"
          :: ["Birmingham", "Leeds", "Edinburgh", "Liverpool", "Bristol",
              "Norwich"])
      = collectCities wFetch ["London"]
        ++ collectCities wFetch
            ["Birmingham", "Leeds", "Edinburgh", "Liverpool", "Bristol",
             "Norwich"]
    ∧ collectKeywords tFetch
        (["flu symptoms", "fever"] ++ "A&E wait times"
          :: ["emergency room", "cold and flu"])
      = collectKeywords tFetch ["flu symptoms", "fever"]
        ++ collectKeywords tFetch ["emergency room", "cold and flu"]
    ∧ (1 : Nat) ∈ download_weather_data wFetch
    ∧ (2 : Nat) ∈ download_google_trends (Except.ok ()) tFetch :=
  ⟨c9_best_effort_loops.1 Nat wFetch ["London"] "Manchester"
      ["Birmingham", "Leeds", "Edinburgh", "Liverpool", "Bristol", "Norwich"]
      (PyErr.exc "net") (by decide),
    c9_best_effort_loops.2.1 Nat tFetch ["flu symptoms", "fever"]
      "A&E wait times" ["emergency room", "cold and flu"]
      (PyErr.exc "quota") (by decide),
    c9_best_effort_loops.2.2.1 Nat wFetch "London" [1] 1 (by decide)
      (by decide) (by decide),
    c9_best_effort_loops.2.2.2 Nat (Except.ok ()) tFetch "fever" [2] 2
      (by decide) rfl (by decide) (by decide)⟩

/-- C10: a row-13 cell holding a date only as text is not recognised as a
date: the date-resolution scan treats a string cell exactly like a
missing cell (so such a column inherits a prior date by forward-fill or
stays unresolved), and a column whose resolved date is `None` never
enters the `date_metric_map`, hence is excluded from processing. -/
theorem c10_text_dates_not_recognised :
    (∀ (cells : List Cell) (i : Nat) (s : String) (last : Option Nat),
        resolveDates (cells.set i (Cell.str s)) last
          = resolveDates (cells.set i Cell.empty) last)
    ∧ (∀ (i : Nat) (ds : List (Option Nat)) (ms : List Cell) (j : Nat)
        (dm : DM), ds[j]? = some Option.none →
        dm ∈ mkDateMetricMap i ds ms → dm.col_idx ≠ i + j + 4) := by
  constructor
  · intro cells i s last
    induction cells generalizing i last with
    | nil => rfl
    | cons c rest ih =>
      cases i with
      | zero => rfl
      | succ j =>
        cases c with
        | date d => simp [List.set, resolveDates, ih]
        | empty => simp [List.set, resolveDates, ih]
        | str s2 => simp [List.set, resolveDates, ih]
        | num n => simp [List.set, resolveDates, ih]
  · intro i ds ms j dm hnone hmem heq
    obtain ⟨j2, d, m, hd, hm2, ht, hci, h5, h6⟩ :=
      mem_mkDateMetricMap i ds ms dm hmem
    have hj : j2 = j := by omega
    subst hj
    rw [hnone] at hd
    simp at hd

/-- Witness for C10: the scan resolves a text date to nothing and the
column is excluded from the date-metric map. -/
theorem c10_text_dates_not_recognised_witness :
    resolveDates ([Cell.date 7, Cell.date 9].set 1 (Cell.str "2025-01-01"))
        (Option.none)
      = resolveDates ([Cell.date 7, Cell.date 9].set 1 Cell.empty) Option.none
    ∧ ({ col_idx := 5, date := 5, metric := "B" } : DM).col_idx ≠ 0 + 0 + 4 :=
  ⟨c10_text_dates_not_recognised.1 [Cell.date 7, Cell.date 9] 1
      "2025-01-01" Option.none,
    c10_text_dates_not_recognised.2 0 [Option.none, some 5]
      [Cell.str "A", Cell.str "B"] 0 _ (by decide) (by decide)⟩

end HospitalPressure
